import Mathlib

/-!
# Verification of the AutoIntel Robotics simulation core

Shallow embedding of the simulation core of the AutoIntel Robotics web
application: the two-joint forward-Euler integrator and torque-capacity
resolution (the `render` loop of the App component), the reset handler,
the weld-spatter particle-pool tick (the `animate` loop of the 3D viewer),
and the health-analysis fallback of the service layer.

JavaScript numbers are modelled as real numbers (`ℝ`); `Math.sin`,
`Math.cos` and `Math.PI` as `Real.sin`, `Real.cos` and `Real.pi`;
`Math.random()` draws are passed in explicitly as inputs.  String parsing
(`parseInt`, `String.prototype.includes`) is modelled computably on
`String`.
-/

/-- The component descriptor (`RoboticComponent` in types). -/
structure RoboticComponent where
  name : String
  ctype : String
  spec : String
  icon : String
deriving DecidableEq

/-- Whether `pat` occurs as a contiguous run starting at some position of `l`. -/
def containsRun (pat : List Char) : List Char → Bool
  | [] => pat.isEmpty
  | c :: rest => pat.isPrefixOf (c :: rest) || containsRun pat rest

/-- JavaScript `String.prototype.includes`: `pat` occurs as a contiguous substring of `s`. -/
def includesSubstr (s pat : String) : Bool :=
  containsRun pat.toList s.toList

/-- Accumulate decimal digits, as JavaScript `parseInt` does on the leading
digit run. -/
def digitsToNat (l : List Char) : Nat :=
  l.foldl (fun acc c => acc * 10 + (c.toNat - 48)) 0

/-- JavaScript `parseInt(s)` (radix 10): skip leading whitespace, optional
sign, then the maximal leading digit run; `none` models the `NaN` result
when no digit is found. -/
def parseIntJS (s : String) : Option Int :=
  let l := s.toList.dropWhile Char.isWhitespace
  let signed : Int × List Char :=
    match l with
    | '-' :: t => (-1, t)
    | '+' :: t => (1, t)
    | t => (1, t)
  let ds := signed.2.takeWhile Char.isDigit
  if ds.isEmpty then none else some (signed.1 * (digitsToNat ds : Int))

/-- Torque-capacity resolution from the render loop:
`let maxTorqueCapacity = 100; if (actuator && actuator.spec.includes('Nm'))
{ const parsed = parseInt(actuator.spec); if (!isNaN(parsed))
maxTorqueCapacity = parsed; }`. -/
def resolveTorqueCapacity (actuator : Option RoboticComponent) : Int :=
  match actuator with
  | none => 100
  | some a =>
    if includesSubstr a.spec "Nm" then
      match parseIntJS a.spec with
      | some n => n
      | none => 100
    else 100

/-- The COMPONENTS inventory from constants. -/
def COMPONENTS : List RoboticComponent :=
  [⟨"NVIDIA Jetson AGX Orin", "Compute", "275 TOPS", "Cpu"⟩,
   ⟨"Unitree H1 Torque Motor", "Actuator", "360 Nm Peak", "Zap"⟩,
   ⟨"Ouster OS1 LiDAR", "Sensor", "128 Channels", "Eye"⟩,
   ⟨"Industrial Weld Gun", "Tool", "10kA Resistance", "Hammer"⟩,
   ⟨"Titanium Skeleton", "Chassis", "6061-T6 Grade", "Shield"⟩]

/-- The initial `installedComponents` record of the App:
Actuator = COMPONENTS[1], Tool = COMPONENTS[3]. -/
def defaultInstalled : String → Option RoboticComponent := fun slot =>
  if slot = "Actuator" then COMPONENTS[1]?
  else if slot = "Tool" then COMPONENTS[3]? else none

/-- The joint state carried across ticks by `simRef`. -/
structure JointState where
  theta1 : ℝ
  omega1 : ℝ
  theta2 : ℝ
  omega2 : ℝ

theorem JointState.ext_iff' (a b : JointState) :
    a = b ↔ a.theta1 = b.theta1 ∧ a.omega1 = b.omega1 ∧
      a.theta2 = b.theta2 ∧ a.omega2 = b.omega2 := by
  cases a; cases b; simp

/-- The fixed timestep of the physics loop. -/
noncomputable def dtStep : ℝ := 0.016

/-- One pass of the `render` closure of the simulation physics loop
(part_002, lines 292-315), as a pure function of the installed components,
the slider parameters G, friction and torque, and the carried state. -/
noncomputable def renderTick (comps : String → Option RoboticComponent)
    (g friction torque : ℝ) (s : JointState) : JointState :=
  let chassisEffect : ℝ := if (comps "Chassis").isSome then 0.8 else 1.0
  let damping := friction * 5 * chassisEffect
  let maxTorqueCapacity : ℝ := (resolveTorqueCapacity (comps "Actuator") : ℝ)
  let appliedTorque := torque / 100 * maxTorqueCapacity * 0.5
  let omega1' := s.omega1 +
    (appliedTorque - g * Real.sin s.theta1 - s.omega1 * damping) * dtStep
  let theta1' := s.theta1 + omega1' * dtStep
  let omega2' := s.omega2 +
    (-g * Real.sin s.theta2 - s.omega2 * damping) * dtStep
  let theta2' := s.theta2 + omega2' * dtStep
  { theta1 := theta1', omega1 := omega1', theta2 := theta2', omega2 := omega2' }

/-- The integrator step exactly as the specification words it: the claimed
formulas `omega1' = omega1 + dt*(appliedTorque - gravity*sin(theta1) -
omega1*damping)`, `theta1' = theta1 + dt*omega1'`, passive joint 2, with
`appliedTorque = (torqueCommand/100)*maxTorqueCapacity*0.5` and
`damping = friction*5*chassisFactor`, `chassisFactor = 0.8` when a Chassis
component is installed and `1.0` otherwise. -/
noncomputable def specStep (chassisInstalled : Bool)
    (gravity friction torqueCommand maxTorqueCapacity : ℝ)
    (s : JointState) : JointState :=
  let chassisFactor : ℝ := if chassisInstalled then 0.8 else 1.0
  let damping := friction * 5 * chassisFactor
  let appliedTorque := torqueCommand / 100 * maxTorqueCapacity * 0.5
  let omega1' := s.omega1 +
    dtStep * (appliedTorque - gravity * Real.sin s.theta1 - s.omega1 * damping)
  let theta1' := s.theta1 + dtStep * omega1'
  let omega2' := s.omega2 +
    dtStep * (-gravity * Real.sin s.theta2 - s.omega2 * damping)
  let theta2' := s.theta2 + dtStep * omega2'
  { theta1 := theta1', omega1 := omega1', theta2 := theta2', omega2 := omega2' }

/-- C1: one tick of the physics loop produces exactly the joint state the
specification's forward-Euler formulas prescribe — torque applied to joint 1
only, joint 2 passive, `damping = friction*5*chassisFactor` with
`chassisFactor = 0.8` iff a Chassis component is installed, and
`maxTorqueCapacity` resolved from the installed Actuator. -/
theorem integrator_matches_spec_formulas
    (comps : String → Option RoboticComponent) (g friction torque : ℝ)
    (s : JointState) :
    renderTick comps g friction torque s =
      specStep (comps "Chassis").isSome g friction torque
        (resolveTorqueCapacity (comps "Actuator") : ℝ) s := by
  rw [JointState.ext_iff']
  refine ⟨?_, ?_, ?_, ?_⟩ <;> simp only [renderTick, specStep] <;> ring

/-- One animation frame of the App's simulation effect: the effect body
returns immediately (no integration) unless the current page is the
Simulation page, the simulation is running, and no emergency stop is
latched (part_002, line 289). -/
noncomputable def appFrame (isSimPage running estop : Bool)
    (comps : String → Option RoboticComponent) (g friction torque : ℝ)
    (s : JointState) : JointState :=
  if isSimPage && running && !estop then renderTick comps g friction torque s
  else s

/-- C2: with the emergency stop latched or the simulation not running, any
number of animation frames leaves the joint state unchanged — the freeze is
a pause, not a reset. -/
theorem freeze_invariant (isSimPage running estop : Bool)
    (comps : String → Option RoboticComponent) (g friction torque : ℝ)
    (s : JointState) (n : ℕ) (h : estop = true ∨ running = false) :
    (appFrame isSimPage running estop comps g friction torque)^[n] s = s := by
  induction n with
  | zero => rfl
  | succ k ih =>
    rw [Function.iterate_succ_apply, show
      appFrame isSimPage running estop comps g friction torque s = s from ?_, ih]
    rcases h with h | h <;> simp [appFrame, h]

/-- Witness for C2 at a concrete frozen state and frame count. -/
theorem freeze_invariant_witness :
    (appFrame true true true defaultInstalled 9.8 0.1 50)^[3]
      ⟨1, 2, 3, 4⟩ = ⟨1, 2, 3, 4⟩ :=
  freeze_invariant true true true defaultInstalled 9.8 0.1 50 ⟨1, 2, 3, 4⟩ 3
    (Or.inl rfl)

/-- The initial joint state (`simRef` initial value, part_002 line 256). -/
noncomputable def initState : JointState :=
  ⟨Real.pi / 4, 0, Real.pi / 6, 0⟩

/-- The Reset Vectors button handler (part_002, line 515): it overwrites
`simRef.current` with the fixed initial record, ignoring the prior state. -/
noncomputable def resetJoint (_prior : JointState) : JointState :=
  ⟨Real.pi / 4, 0, Real.pi / 6, 0⟩

/-- C8: after an explicit reset — here applied after an arbitrary number of
frames from an arbitrary prior state — the joint state is exactly
`{theta1 = π/4, omega1 = 0, theta2 = π/6, omega2 = 0}`. -/
theorem reset_invariant (isSimPage running estop : Bool)
    (comps : String → Option RoboticComponent) (g friction torque : ℝ)
    (s : JointState) (n : ℕ) :
    resetJoint
        ((appFrame isSimPage running estop comps g friction torque)^[n] s) =
      ⟨Real.pi / 4, 0, Real.pi / 6, 0⟩ :=
  rfl

/-- Unfolded `theta1` component of one render tick. -/
theorem renderTick_theta1 (comps : String → Option RoboticComponent)
    (g friction torque : ℝ) (s : JointState) :
    (renderTick comps g friction torque s).theta1 =
      s.theta1 + (s.omega1 +
        (torque / 100 * (resolveTorqueCapacity (comps "Actuator") : ℝ) * 0.5
          - g * Real.sin s.theta1 - s.omega1 *
            (friction * 5 * (if (comps "Chassis").isSome then 0.8 else 1.0)))
          * dtStep) * dtStep :=
  rfl

/-- Unfolded `omega1` component of one render tick. -/
theorem renderTick_omega1 (comps : String → Option RoboticComponent)
    (g friction torque : ℝ) (s : JointState) :
    (renderTick comps g friction torque s).omega1 =
      s.omega1 +
        (torque / 100 * (resolveTorqueCapacity (comps "Actuator") : ℝ) * 0.5
          - g * Real.sin s.theta1 - s.omega1 *
            (friction * 5 * (if (comps "Chassis").isSome then 0.8 else 1.0)))
          * dtStep :=
  rfl

theorem defaultInstalled_actuator_capacity :
    resolveTorqueCapacity (defaultInstalled "Actuator") = 360 := by decide

theorem defaultInstalled_chassis : defaultInstalled "Chassis" = none := by decide

theorem sin_pi_div_four_pos : 0 < Real.sin (Real.pi / 4) := by
  rw [Real.sin_pi_div_four]
  positivity

/-- C4 counterexample: in the stated scenario (gravity 9.8, friction 0.1,
torque 0, actuator "360 Nm Peak", one tick from the initial state) the new
`theta1` does NOT equal `π/4 + 0.016*(0 - 9.8*sin(π/4) - 0*0.5)`: the code
multiplies the angular-acceleration term by `dt` twice (once into `omega1`,
once more into `theta1`), so the claimed exact value is off by a factor of
`dt` in the displacement. -/
theorem scenario_one_tick_cx :
    (renderTick defaultInstalled 9.8 0.1 0 initState).theta1 ≠
      Real.pi / 4 + 0.016 * (0 - 9.8 * Real.sin (Real.pi / 4) - 0 * 0.5) := by
  rw [renderTick_theta1, defaultInstalled_actuator_capacity,
    defaultInstalled_chassis]
  simp only [initState, Option.isSome_none, Bool.false_eq_true, if_false]
  intro h
  have h2 : (0 : ℝ) < Real.sqrt 2 := by positivity
  rw [dtStep] at h
  norm_num at h
  linarith [h, h2]

/-- C4 amended: in the stated scenario, after one tick `theta1` has
decreased from `π/4`, `omega1` is negative, and the new `theta1` equals
exactly `π/4 + 0.016*(0.016*(0 - 9.8*sin(π/4) - 0*0.5))` — the claimed
expression with the angular-velocity increment additionally scaled by the
timestep, as the forward-Euler update prescribes. -/
theorem scenario_one_tick_amended :
    (renderTick defaultInstalled 9.8 0.1 0 initState).theta1 =
        Real.pi / 4 + 0.016 * (0.016 * (0 - 9.8 * Real.sin (Real.pi / 4) - 0 * 0.5)) ∧
      (renderTick defaultInstalled 9.8 0.1 0 initState).theta1 < Real.pi / 4 ∧
      (renderTick defaultInstalled 9.8 0.1 0 initState).omega1 < 0 := by
  have hs := sin_pi_div_four_pos
  refine ⟨?_, ?_, ?_⟩
  · rw [renderTick_theta1, defaultInstalled_actuator_capacity,
      defaultInstalled_chassis]
    simp only [initState, Option.isSome_none, Bool.false_eq_true, if_false]
    rw [dtStep]
    ring
  · rw [renderTick_theta1, defaultInstalled_actuator_capacity,
      defaultInstalled_chassis]
    simp only [initState, Option.isSome_none, Bool.false_eq_true, if_false]
    rw [dtStep]
    nlinarith [hs]
  · rw [renderTick_omega1, defaultInstalled_actuator_capacity,
      defaultInstalled_chassis]
    simp only [initState, Option.isSome_none, Bool.false_eq_true, if_false]
    rw [dtStep]
    nlinarith [hs]

/-- C5: for every installed Actuator whose spec string has no parsable
leading integer (`parseInt` yields `NaN`), the resolved torque capacity is
the default 100; the resolver is a total function, so the parse failure is
absorbed and never surfaced to the caller. -/
theorem torque_capacity_fallback (a : RoboticComponent)
    (h : parseIntJS a.spec = none) :
    resolveTorqueCapacity (some a) = 100 := by
  cases hnm : includesSubstr a.spec "Nm" <;>
    simp [resolveTorqueCapacity, hnm, h]

/-- Witness for C5 at a concrete unparsable actuator spec. -/
theorem torque_capacity_fallback_witness :
    parseIntJS "Nm Peak" = none ∧
      resolveTorqueCapacity (some ⟨"X", "Actuator", "Nm Peak", "Zap"⟩) = 100 :=
  ⟨by decide,
    torque_capacity_fallback ⟨"X", "Actuator", "Nm Peak", "Zap"⟩ (by decide)⟩

/-- C10: the leading integer of an actuator spec is consulted only when the
spec string contains the substring "Nm": without it the capacity is the
default 100 even when a leading integer parses, and in particular the
Compute component's spec "275 TOPS" resolves to 100 although it parses
as 275. -/
theorem capacity_requires_nm_unit :
    (∀ a : RoboticComponent, includesSubstr a.spec "Nm" = false →
        resolveTorqueCapacity (some a) = 100) ∧
      resolveTorqueCapacity (some ⟨"NVIDIA Jetson AGX Orin", "Compute",
        "275 TOPS", "Cpu"⟩) = 100 ∧
      parseIntJS "275 TOPS" = some 275 := by
  refine ⟨fun a h => ?_, by decide, by decide⟩
  unfold resolveTorqueCapacity
  simp [h]

/-- Witness for C10 at the concrete Compute component from the inventory. -/
theorem capacity_requires_nm_unit_witness :
    resolveTorqueCapacity (some ⟨"NVIDIA Jetson AGX Orin", "Compute",
      "275 TOPS", "Cpu"⟩) = 100 :=
  capacity_requires_nm_unit.1
    ⟨"NVIDIA Jetson AGX Orin", "Compute", "275 TOPS", "Cpu"⟩ (by decide)

/-- The structured health record returned by the analysis service. -/
structure HealthRecord where
  healthScore : ℚ
  state : String
  briefAnalysis : String
  nextCalibration : String
deriving DecidableEq

/-- The service-layer `analyzeTelemetryHealth` (part_002 lines 49-75): the
outcome of the external generative-AI request is passed in as an `Except`
value (error = thrown network/API failure); a failure is caught and
replaced by the fixed degraded record, so the function is total and never
propagates the error. -/
def analyzeTelemetryHealth (apiResult : Except String HealthRecord) :
    HealthRecord :=
  match apiResult with
  | .ok r => r
  | .error _ =>
    ⟨50, "Unknown", "Analysis engine offline.", "Immediate"⟩

/-- C9: whenever the external analysis call fails — whatever the error —
the record delivered to the caller is exactly
`{healthScore: 50, state: "Unknown", briefAnalysis: "Analysis engine
offline.", nextCalibration: "Immediate"}`, returned as an ordinary value,
not an error. -/
theorem health_fallback_record (e : String) :
    analyzeTelemetryHealth (Except.error e) =
      ⟨50, "Unknown", "Analysis engine offline.", "Immediate"⟩ :=
  rfl

/-- Vector of three JavaScript numbers. -/
structure Vec3 where
  x : ℝ
  y : ℝ
  z : ℝ

/-- One slot of the fixed-capacity spatter pool: interleaved position,
velocity and life buffers of the Points geometry. -/
structure Particle where
  pos : Vec3
  vel : Vec3
  life : ℝ

/-- The `Math.random()` draws one slot may consume in one tick: the 0.3
spawn gate, the angle, spread and upward-speed draws of a spawn, and the
life-decay jitter of an advance. -/
structure SlotRand where
  roll : ℝ
  angleR : ℝ
  spreadR : ℝ
  vzR : ℝ
  decayR : ℝ

/-- The pool capacity MAX_SPARKS. -/
def MAX_SPARKS : ℕ := 800

/-- The loop body of the spatter update (part_001, lines 330-351) for one
slot `i`, threading the `spawned` counter; the second counter is a ghost
recording how many times the spawn gate `Math.random() < 0.3` was actually
rolled (the short-circuit `spawned < spawnRate && ...` skips the roll once
the budget is exhausted). -/
noncomputable def stepSlot (lifeMult : ℝ) (spawnRate : ℕ) (st : ℕ × ℕ)
    (p : Particle) (r : SlotRand) : Particle × ℕ × ℕ :=
  if p.life ≤ 0 then
    if st.1 < spawnRate then
      if r.roll < 0.3 then
        let angle := r.angleR * (Real.pi * 2)
        let spread := 0.05 + r.spreadR * 0.2
        (⟨⟨0, 0, 0.5⟩,
          ⟨Real.cos angle * spread, Real.sin angle * spread,
            0.1 + r.vzR * 0.3⟩, 1⟩,
         st.1 + 1, st.2 + 1)
      else (p, st.1, st.2 + 1)
    else (p, st.1, st.2)
  else
    let py := p.pos.y + p.vel.y
    let life' := p.life - (0.015 + r.decayR * 0.01) / max 0.1 lifeMult
    (⟨⟨p.pos.x + p.vel.x, py, p.pos.z + p.vel.z⟩,
      ⟨p.vel.x, p.vel.y - 0.01, p.vel.z⟩,
      if py < -1.5 then 0 else life'⟩,
     st.1, st.2)

/-- The `for (let i = 0; i < MAX_SPARKS; i++)` scan over the pool, carrying
the `spawned` counter (and the ghost attempt counter) left to right. -/
noncomputable def stepSlots (lifeMult : ℝ) (spawnRate : ℕ) :
    ℕ × ℕ → List (Particle × SlotRand) → List Particle × ℕ × ℕ
  | st, [] => ([], st)
  | st, pr :: rest =>
    let q := stepSlot lifeMult spawnRate st pr.1 pr.2
    let tail := stepSlots lifeMult spawnRate q.2 rest
    (q.1 :: tail.1, tail.2)

/-- One tick of the spatter system (part_001, lines 316-359): when running,
not emergency-stopped and a Tool is installed, scan the pool with spawn
budget `floor(density * 20)`; otherwise force every slot's life to 0. -/
noncomputable def particleTick (running estop hasTool : Bool)
    (density lifeMult : ℝ) (slots : List (Particle × SlotRand)) :
    List Particle × ℕ × ℕ :=
  if running && !estop && hasTool then
    stepSlots lifeMult (Int.toNat ⌊density * 20⌋) (0, 0) slots
  else
    (slots.map (fun pr => ⟨pr.1.pos, pr.1.vel, 0⟩), 0, 0)

/-- C6: whenever the spatter system's active predicate (running, not
emergency-stopped, Tool installed) is false, one tick forces the life of
every one of the 800 slots to 0 — previously active slots included. -/
theorem clear_invariant (running estop hasTool : Bool)
    (density lifeMult : ℝ) (slots : List (Particle × SlotRand))
    (hlen : slots.length = MAX_SPARKS)
    (h : (running && !estop && hasTool) = false) :
    (particleTick running estop hasTool density lifeMult slots).1.map
        Particle.life = List.replicate MAX_SPARKS (0 : ℝ) := by
  rw [particleTick, if_neg (by rw [h]; exact Bool.false_ne_true), ← hlen,
    List.map_map]
  refine List.eq_replicate_iff.mpr ⟨by simp, fun b hb => ?_⟩
  obtain ⟨pr, hpr, hbe⟩ := List.mem_map.mp hb
  exact hbe ▸ rfl

/-- A fully inactive demonstration pool paired with fixed random draws. -/
noncomputable def idleSlots : List (Particle × SlotRand) :=
  List.replicate MAX_SPARKS (⟨⟨⟨0, 0, 0⟩, ⟨0, 0, 0⟩, 0⟩, ⟨1, 0, 0, 0, 0⟩⟩)

/-- Witness for C6: an emergency-stopped tick clears a full 800-slot pool. -/
theorem clear_invariant_witness :
    (particleTick true true true 1 1 idleSlots).1.map Particle.life =
      List.replicate MAX_SPARKS (0 : ℝ) :=
  clear_invariant true true true 1 1 idleSlots
    (by simp [idleSlots]) (by decide)

/-- C7: an active particle (life > 0) advanced by one pass of the loop body
whose updated y-position falls below -1.5 ends the tick with life exactly 0,
whatever its prior life and whatever the spawn-budget state. -/
theorem retirement_invariant (lifeMult : ℝ) (spawnRate : ℕ) (st : ℕ × ℕ)
    (p : Particle) (r : SlotRand) (hactive : 0 < p.life)
    (hfloor : p.pos.y + p.vel.y < -1.5) :
    ((stepSlot lifeMult spawnRate st p r).1).life = 0 := by
  simp only [stepSlot, if_neg (not_le.mpr hactive)]
  rw [if_pos hfloor]

/-- Witness for C7: a concrete falling particle with plenty of remaining
life is retired on the tick its y-position passes the floor. -/
theorem retirement_invariant_witness :
    ((stepSlot 1 20 (0, 0) ⟨⟨0, -1.4, 0⟩, ⟨0, -0.2, 0⟩, 0.9⟩
        ⟨0.5, 0.5, 0.5, 0.5, 0.5⟩).1).life = 0 :=
  retirement_invariant 1 20 (0, 0) ⟨⟨0, -1.4, 0⟩, ⟨0, -0.2, 0⟩, 0.9⟩
    ⟨0.5, 0.5, 0.5, 0.5, 0.5⟩ (by norm_num) (by norm_num)

/-- Counter effect of one loop pass on an inactive slot with budget left and
a successful 0.3 roll: one spawn is confirmed and one roll was made. -/
theorem stepSlot_counts_spawn (lifeMult : ℝ) (rate s a : ℕ) (p : Particle)
    (r : SlotRand) (hl : p.life ≤ 0) (hb : s < rate) (hr : r.roll < 0.3) :
    (stepSlot lifeMult rate (s, a) p r).2 = (s + 1, a + 1) := by
  simp only [stepSlot, if_pos hl, if_pos hb, if_pos hr]

/-- Counter effect of one loop pass on an inactive slot with budget left and
a failed 0.3 roll: the slot is untouched, no budget is consumed, but a roll
was made. -/
theorem stepSlot_counts_failroll (lifeMult : ℝ) (rate s a : ℕ) (p : Particle)
    (r : SlotRand) (hl : p.life ≤ 0) (hb : s < rate) (hr : ¬r.roll < 0.3) :
    stepSlot lifeMult rate (s, a) p r = (p, s, a + 1) := by
  simp only [stepSlot, if_pos hl, if_pos hb, if_neg hr]

/-- Counter effect of one loop pass on an inactive slot once the budget is
exhausted: the short-circuit skips the roll entirely. -/
theorem stepSlot_counts_nobudget (lifeMult : ℝ) (rate s a : ℕ) (p : Particle)
    (r : SlotRand) (hl : p.life ≤ 0) (hb : ¬s < rate) :
    stepSlot lifeMult rate (s, a) p r = (p, s, a) := by
  simp only [stepSlot, if_pos hl, if_neg hb]

/-- An active slot neither spawns nor rolls: the counters pass through. -/
theorem stepSlot_counts_active (lifeMult : ℝ) (rate s a : ℕ) (p : Particle)
    (r : SlotRand) (hl : ¬p.life ≤ 0) :
    (stepSlot lifeMult rate (s, a) p r).2 = (s, a) := by
  simp only [stepSlot, if_neg hl]

/-- Scanning an appended pool threads the counters left to right. -/
theorem stepSlots_append (lifeMult : ℝ) (rate : ℕ)
    (l1 l2 : List (Particle × SlotRand)) :
    ∀ st : ℕ × ℕ,
      (stepSlots lifeMult rate st (l1 ++ l2)).2 =
        (stepSlots lifeMult rate (stepSlots lifeMult rate st l1).2 l2).2 := by
  induction l1 with
  | nil => intro st; rfl
  | cons pr rest ih =>
    intro st
    exact ih (stepSlot lifeMult rate st pr.1 pr.2).2

/-- The confirmed-spawn counter over any pool scan: starting from `s ≤ rate`
confirmed spawns, the final count is the smaller of the budget and the
number of inactive slots whose 0.3 roll succeeds — a failed roll consumes
no budget. -/
theorem stepSlots_spawned_eq (lifeMult : ℝ) (rate : ℕ)
    (slots : List (Particle × SlotRand)) :
    ∀ s a : ℕ, s ≤ rate →
      (stepSlots lifeMult rate (s, a) slots).2.1 =
        min rate (s + slots.countP
          (fun pr => decide (pr.1.life ≤ 0 ∧ pr.2.roll < (0.3 : ℝ)))) := by
  induction slots with
  | nil =>
    intro s a h
    simp only [stepSlots, List.countP_nil, Nat.add_zero]
    omega
  | cons pr rest ih =>
    intro s a h
    simp only [stepSlots, List.countP_cons]
    by_cases hl : pr.1.life ≤ 0
    · by_cases hb : s < rate
      · by_cases hr : pr.2.roll < (0.3 : ℝ)
        · rw [stepSlot_counts_spawn lifeMult rate s a pr.1 pr.2 hl hb hr,
            ih (s + 1) (a + 1) (by omega)]
          simp only [decide_eq_true_eq]
          rw [if_pos ⟨hl, hr⟩]
          omega
        · rw [stepSlot_counts_failroll lifeMult rate s a pr.1 pr.2 hl hb hr]
          simp only []
          rw [ih s (a + 1) h]
          simp only [decide_eq_true_eq]
          rw [if_neg (fun hc => hr hc.2)]
          omega
      · rw [stepSlot_counts_nobudget lifeMult rate s a pr.1 pr.2 hl hb]
        simp only []
        rw [ih s a h]
        have hs : s = rate := by omega
        subst hs
        omega
    · rw [stepSlot_counts_active lifeMult rate s a pr.1 pr.2 hl,
        ih s a h]
      simp only [decide_eq_true_eq]
      rw [if_neg (fun hc => hl hc.1)]
      omega

/-- C3 amended: under an active spatter tick the per-tick spawn budget
`floor(density*20)` caps CONFIRMED spawns, not attempts: every inactive
slot rolls the 0.3 gate while fewer than the budget spawns are confirmed,
a failed roll consumes no budget, and the number of newly activated slots
equals `min(budget, number of inactive slots whose roll succeeds)` — hence
at most the budget (20 when density = 1.0), and with many inactive slots it
typically reaches the budget exactly rather than staying "generally lower". -/
theorem spawn_budget_caps_confirmed_spawns (running estop hasTool : Bool)
    (density lifeMult : ℝ) (slots : List (Particle × SlotRand))
    (h : (running && !estop && hasTool) = true) :
    (particleTick running estop hasTool density lifeMult slots).2.1 =
      min (Int.toNat ⌊density * 20⌋)
        (slots.countP
          (fun pr => decide (pr.1.life ≤ 0 ∧ pr.2.roll < (0.3 : ℝ)))) := by
  rw [particleTick, if_pos h]
  simpa using
    stepSlots_spawned_eq lifeMult (Int.toNat ⌊density * 20⌋) slots 0 0
      (Nat.zero_le _)

/-- An inactive (free) pool slot. -/
noncomputable def idleP : Particle := ⟨⟨0, 0, 0⟩, ⟨0, 0, 0⟩, 0⟩

/-- Random draws whose spawn gate fails (roll 1 ≥ 0.3). -/
noncomputable def failRand : SlotRand := ⟨1, 0, 0, 0, 0⟩

/-- Random draws whose spawn gate succeeds (roll 0 < 0.3). -/
noncomputable def succRand : SlotRand := ⟨0, 0, 0, 0, 0⟩

theorem idleP_inactive : idleP.life ≤ 0 := le_of_eq rfl

theorem failRand_fails : ¬failRand.roll < (0.3 : ℝ) := by
  norm_num [failRand]

theorem succRand_succeeds : succRand.roll < (0.3 : ℝ) := by
  norm_num [succRand]

/-- A run of inactive slots whose rolls all fail spends no budget but rolls
once per slot (while budget remains). -/
theorem stepSlots_fail_seg (lifeMult : ℝ) (rate : ℕ) :
    ∀ n s a : ℕ, s < rate →
      (stepSlots lifeMult rate (s, a)
          (List.replicate n (idleP, failRand))).2 = (s, a + n) := by
  intro n
  induction n with
  | zero => intro s a _; rfl
  | succ k ih =>
    intro s a h
    rw [List.replicate_succ]
    simp only [stepSlots]
    rw [stepSlot_counts_failroll lifeMult rate s a idleP failRand
      idleP_inactive h failRand_fails]
    simp only []
    rw [ih s (a + 1) h]
    simp only [Prod.mk.injEq, true_and]
    omega

/-- A run of inactive slots whose rolls all succeed spawns (and rolls) once
per slot until the budget runs out, then stops rolling altogether. -/
theorem stepSlots_succ_seg (lifeMult : ℝ) (rate : ℕ) :
    ∀ n s a : ℕ, s ≤ rate →
      (stepSlots lifeMult rate (s, a)
          (List.replicate n (idleP, succRand))).2 =
        (min rate (s + n), a + min n (rate - s)) := by
  intro n
  induction n with
  | zero =>
    intro s a h
    simp only [List.replicate_zero, stepSlots, Prod.mk.injEq]
    omega
  | succ k ih =>
    intro s a h
    rw [List.replicate_succ]
    simp only [stepSlots]
    by_cases hb : s < rate
    · rw [stepSlot_counts_spawn lifeMult rate s a idleP succRand
        idleP_inactive hb succRand_succeeds]
      rw [ih (s + 1) (a + 1) (by omega)]
      simp only [Prod.mk.injEq]
      omega
    · rw [stepSlot_counts_nobudget lifeMult rate s a idleP succRand
        idleP_inactive hb]
      simp only []
      rw [ih s a h]
      simp only [Prod.mk.injEq]
      omega

/-- The spawn budget at density 1.0. -/
theorem budget_density_one : Int.toNat ⌊(1 : ℝ) * 20⌋ = 20 := by
  rw [one_mul, show ((20 : ℝ)) = ((20 : ℤ) : ℝ) by norm_num, Int.floor_intCast]
  rfl

/-- The counterexample pool: all 800 slots inactive; the first 30 slots'
rolls fail, every later roll succeeds. -/
noncomputable def slotsCx : List (Particle × SlotRand) :=
  List.replicate 30 (idleP, failRand) ++ List.replicate 770 (idleP, succRand)

theorem slotsCx_length : slotsCx.length = MAX_SPARKS := by
  rw [slotsCx, List.length_append, List.length_replicate,
    List.length_replicate, MAX_SPARKS]

/-- C3 counterexample: an active tick at density 1.0 (budget 20) over the
800-slot pool `slotsCx` rolls the 0.3 spawn gate 50 times — more than the
budget — while confirming exactly 20 spawns: the budget therefore counts
confirmed spawns, not attempts, contradicting the claim (and with it the
claimed Binomial(20, 0.3) law for the number of newly activated slots). -/
theorem spawn_budget_attempts_cx :
    (particleTick true false true 1 1 slotsCx).2.1 = 20 ∧
      (particleTick true false true 1 1 slotsCx).2.2 = 50 ∧
      ¬(particleTick true false true 1 1 slotsCx).2.2 ≤
        Int.toNat ⌊(1 : ℝ) * 20⌋ := by
  have hfinal : (particleTick true false true 1 1 slotsCx).2 = (20, 50) := by
    rw [particleTick,
      if_pos (show (true && !false && true) = true from rfl),
      budget_density_one, slotsCx,
      stepSlots_append,
      stepSlots_fail_seg 1 20 30 0 0 (by omega),
      stepSlots_succ_seg 1 20 770 0 30 (by omega)]
    simp only [Prod.mk.injEq]
    omega
  rw [hfinal, budget_density_one]
  exact ⟨rfl, rfl, by omega⟩

/-- Witness for the amended C3 theorem at the concrete counterexample pool. -/
theorem spawn_budget_caps_confirmed_spawns_witness :
    (particleTick true false true 1 1 slotsCx).2.1 =
      min (Int.toNat ⌊(1 : ℝ) * 20⌋)
        (slotsCx.countP
          (fun pr => decide (pr.1.life ≤ 0 ∧ pr.2.roll < (0.3 : ℝ)))) :=
  spawn_budget_caps_confirmed_spawns true false true 1 1 slotsCx (by decide)
